import Mathlib

/-!
Verification of the process-execution and interactive-shell core of the
unify script editor.  The relevant source is ScriptEditor.run_script
(unify-main.py lines 145-165; the body of advanced_script_editor.py lines
292-312 is character-for-character the same) together with TerminalWidget
(advanced_script_editor.py lines 75-108).  The definitions below are a
shallow embedding of that code: the filesystem is an association list of
path/content pairs, the operating-system process launcher is a parameter
whose calls are recorded in a trace, and platform primitives that the code
relies on (subprocess.check_output with shell set, QProcess.write, the
strict utf-8 bytes.decode, str.strip, os.path.splitext,
subprocess.list2cmdline, the cmd.exe command separator) are modelled
explicitly next to the code that uses them.
-/

/-- Python str.strip with no argument removes leading and trailing
whitespace; for the ascii range these are the six characters below. -/
def isPySpace (c : Char) : Bool :=
  c == ' ' || c == '\t' || c == '\n' || c == '\r' || c == '\x0b' || c == '\x0c'

/-- Model of Python str.strip (no argument): drop whitespace from both ends. -/
def pyStrip (s : String) : String :=
  String.mk (((s.data.dropWhile isPySpace).reverse.dropWhile isPySpace).reverse)

/-- Utf-8 encoding of one scalar value, as used by str.encode with utf-8. -/
def utf8EncodeChar (c : Char) : List Nat :=
  let n := c.toNat
  if n < 0x80 then [n]
  else if n < 0x800 then [0xC0 + n / 64, 0x80 + n % 64]
  else if n < 0x10000 then [0xE0 + n / 4096, 0x80 + (n / 64) % 64, 0x80 + n % 64]
  else [0xF0 + n / 262144, 0x80 + (n / 4096) % 64, 0x80 + (n / 64) % 64, 0x80 + n % 64]

/-- Utf-8 encoding of a string to a byte list, the model of encode with utf-8. -/
def utf8Encode (s : String) : List Nat :=
  (s.data.map utf8EncodeChar).flatten

/-- Model of the strict utf-8 decoder used by bytes.decode with default
arguments: none models a raised UnicodeDecodeError (truncated sequence,
stray continuation byte, overlong form, surrogate, or value above
0x10FFFF); some returns the decoded characters. -/
def utf8Decode : List Nat → Option (List Char)
  | [] => some []
  | b :: rest =>
    if b < 0x80 then
      (utf8Decode rest).map (fun cs => Char.ofNat b :: cs)
    else if b < 0xC2 then
      none
    else if b < 0xE0 then
      match rest with
      | [] => none
      | b1 :: rest1 =>
        if b1 / 64 = 2 then
          (utf8Decode rest1).map (fun cs => Char.ofNat ((b - 0xC0) * 64 + (b1 - 0x80)) :: cs)
        else none
    else if b < 0xF0 then
      match rest with
      | b1 :: b2 :: rest2 =>
        if b1 / 64 = 2 ∧ b2 / 64 = 2 ∧ (b = 0xE0 → 0xA0 ≤ b1) ∧ (b = 0xED → b1 < 0xA0) then
          (utf8Decode rest2).map (fun cs =>
            Char.ofNat ((b - 0xE0) * 4096 + (b1 - 0x80) * 64 + (b2 - 0x80)) :: cs)
        else none
      | _ => none
    else if b < 0xF5 then
      match rest with
      | b1 :: b2 :: b3 :: rest3 =>
        if b1 / 64 = 2 ∧ b2 / 64 = 2 ∧ b3 / 64 = 2 ∧ (b = 0xF0 → 0x90 ≤ b1) ∧
            (b = 0xF4 → b1 < 0x90) then
          (utf8Decode rest3).map (fun cs =>
            Char.ofNat ((b - 0xF0) * 262144 + (b1 - 0x80) * 4096 + (b2 - 0x80) * 64 +
              (b3 - 0x80)) :: cs)
        else none
      | _ => none
    else none

/-- Index of the last element of the list satisfying the predicate, the
model of str.rfind returning an index (none models the result -1). -/
def lastIdx (pr : Char → Bool) : List Char → Option Nat
  | [] => none
  | c :: rest =>
    match lastIdx pr rest with
    | some i => some (i + 1)
    | none => if pr c then some 0 else none

/-- Model of os.path.splitext restricted to its second component, the
extension: it starts at the last dot lying strictly after the last path
separator (slash or backslash on Windows), provided at least one character
of the file name before that dot is not itself a dot (so a name of leading
dots only, such as .bashrc, has no extension).  This is the computation of
ext in run_script (unify-main.py line 150). -/
def splitextExt (path : String) : String :=
  let p := path.data
  let sepIdx : Int :=
    match lastIdx (fun c => c == '/' || c == '\\') p with
    | some s => Int.ofNat s
    | none => -1
  match lastIdx (fun c => c == '.') p with
  | none => ""
  | some d =>
    if sepIdx < Int.ofNat d then
      let fnameStart := (sepIdx + 1).toNat
      if ((p.drop fnameStart).take (d - fnameStart)).any (fun c => c != '.') then
        String.mk (p.drop d)
      else ""
    else ""

/-- Inner loop of subprocess.list2cmdline over the characters of one
argument: bs counts the pending backslashes (the bs_buf list of the
Python code); a double quote doubles them and is escaped, any other
character flushes them unchanged, and at the end they are flushed once,
then once more (doubled) when the argument is being quoted. -/
def l2cGo (needquote : Bool) : List Char → Nat → List Char
  | [], bs =>
    List.replicate bs '\\' ++ (if needquote then List.replicate bs '\\' ++ ['"'] else [])
  | c :: rest, bs =>
    if c = '\\' then l2cGo needquote rest (bs + 1)
    else if c = '"' then
      List.replicate (2 * bs) '\\' ++ '\\' :: '"' :: l2cGo needquote rest 0
    else List.replicate bs '\\' ++ c :: l2cGo needquote rest 0

/-- One argument as rendered by subprocess.list2cmdline: double quotes are
added only when the argument contains a space or a tab or is empty. -/
def list2cmdlineArg (arg : String) : List Char :=
  let needquote := arg.data.any (fun c => c == ' ' || c == '\t') || arg.data.isEmpty
  (if needquote then ['"'] else []) ++ l2cGo needquote arg.data 0

/-- Model of subprocess.list2cmdline, the translation Popen applies to a
list args value on Windows before handing one command-line string to the
operating system; with shell set, that string is then run through
cmd.exe /c and re-parsed by cmd.exe. -/
def list2cmdline (args : List String) : String :=
  String.mk (List.intercalate [' '] (args.map list2cmdlineArg))

/-- Splitting loop for the cmd.exe command separator: an ampersand outside
double quotes ends the current command. -/
def cmdSplitAmpGo : List Char → Bool → List Char → List (List Char)
  | [], _, acc => [acc.reverse]
  | c :: rest, inQ, acc =>
    if c = '"' then cmdSplitAmpGo rest (!inQ) ('"' :: acc)
    else if c = '&' ∧ inQ = false then acc.reverse :: cmdSplitAmpGo rest inQ []
    else cmdSplitAmpGo rest inQ (c :: acc)

/-- Model of the cmd.exe command separator applied to a line run via
cmd.exe /c (which is what shell set to true means on Windows): the line is
split at every ampersand that is not inside double quotes and each piece
runs as a separate command. -/
def cmdSplitAmp (s : String) : List String :=
  (cmdSplitAmpGo s.data false []).map String.mk

/-- Editor tab state relevant to running: the associated path (None for a
never-saved tab) and the current buffer text, from ScriptTab. -/
structure ScriptTab where
  file_path : Option String
  buffer : String
deriving DecidableEq

/-- The on-disk filesystem as an association list from path to content;
the most recent write for a path is listed first. -/
abbrev FileSystem := List (String × String)

/-- Writing a file: the new content shadows any previous entry. -/
def fsWrite (fs : FileSystem) (path content : String) : FileSystem :=
  (path, content) :: fs

/-- ScriptTab.save (unify-main.py lines 27-34) for a tab whose file_path
is already set: the buffer is written to that path and True is returned.
The branch opening a save dialog for a path-less tab is user interaction
and is unreachable from run_script, which returns earlier when file_path
is None; it is modelled as a cancelled dialog performing no write. -/
def ScriptTab.save (tab : ScriptTab) (fs : FileSystem) : FileSystem :=
  match tab.file_path with
  | some p => fsWrite fs p tab.buffer
  | none => fs

/-- Outcome of one subprocess.check_output call as seen by the caller:
either the child process terminated with an exit code and the merged
stdout plus stderr text (stderr was redirected into stdout), or the
operating system failed to create the process and an OSError carrying the
given message was raised. -/
inductive SpawnResult where
  | completed (exitCode : Nat) (output : String)
  | osError (msg : String)
deriving DecidableEq

/-- Observable outcome of run_script: the warning shown for a tab without
a path, the warning for an unsupported script type, a completed execution
shown as an information or warning box with the captured output, or an
exception other than CalledProcessError escaping run_script uncaught. -/
inductive RunOutcome where
  | saveFirstWarning
  | unsupportedType
  | executed (succeeded : Bool) (combinedOutput : String)
  | uncaughtError (msg : String)
deriving DecidableEq

/-- The if/elif chain of run_script (unify-main.py lines 151-159) mapping
the derived extension to the interpreter command list handed to
check_output; none is the final else branch, the unsupported script type. -/
def resolveCmd (ext : String) (filePath : String) : Option (List String) :=
  if ext = ".py" then some ["python", filePath]
  else if ext = ".bat" then some ["cmd.exe", "/c", filePath]
  else if ext = ".ps1" then some ["powershell", "-File", filePath]
  else none

/-- ScriptEditor.run_script (unify-main.py lines 145-165; identical body
at advanced_script_editor.py lines 292-312).  The launcher spawn is a
parameter so its calls are observable: the third component of the result
lists the command of every check_output call in order.  The code first
checks that a tab with a file path exists, derives the extension and
resolves the command, returns with a warning when unsupported, saves the
buffer to the file, then calls check_output with stderr merged into
stdout, text mode and shell set: exit code zero returns the output, a
non-zero exit raises CalledProcessError whose output field run_script
catches and shows, and an OSError from process creation is not caught. -/
def run_script (spawn : List String → SpawnResult) (tab? : Option ScriptTab)
    (fs : FileSystem) : RunOutcome × FileSystem × List (List String) :=
  match tab? with
  | none => (RunOutcome.saveFirstWarning, fs, [])
  | some tab =>
    match tab.file_path with
    | none => (RunOutcome.saveFirstWarning, fs, [])
    | some path =>
      let ext := splitextExt path
      match resolveCmd ext path with
      | none => (RunOutcome.unsupportedType, fs, [])
      | some cmd =>
        let fs1 := tab.save fs
        match spawn cmd with
        | SpawnResult.completed 0 out => (RunOutcome.executed true out, fs1, [cmd])
        | SpawnResult.completed (_ + 1) out => (RunOutcome.executed false out, fs1, [cmd])
        | SpawnResult.osError msg => (RunOutcome.uncaughtError msg, fs1, [cmd])

/-- State of the QProcess owned by the terminal: whether the child shell
process is running, and the list of byte chunks written to its standard
input so far. -/
structure QProcessState where
  running : Bool
  stdinWrites : List (List Nat)
deriving DecidableEq

/-- Model of QProcess.write: on a running process the bytes are appended
to the stream of writes reaching the child standard input; on a process
that is not running the device is closed, so the write is discarded and
returns -1 without raising and without starting any process. -/
def QProcessState.write (p : QProcessState) (bytes : List Nat) : QProcessState :=
  if p.running then { p with stdinWrites := p.stdinWrites ++ [bytes] } else p

/-- TerminalWidget state: its QProcess, the text of the input box, and the
chunks appended to the output box so far. -/
structure TerminalWidget where
  process : QProcessState
  inputText : String
  outputLog : List String
deriving DecidableEq

/-- Key press as dispatched by TerminalWidget.handle_keypress, which only
distinguishes the Return key from everything else. -/
inductive QtKey where
  | ret
  | other
deriving DecidableEq

/-- TerminalWidget.handle_keypress (advanced_script_editor.py lines
92-97): on Return, read the input text, strip it, clear the input box,
and when the stripped command is non-empty write it followed by one
newline, utf-8 encoded, to the process input. -/
def TerminalWidget.handle_keypress (w : TerminalWidget) (event : QtKey) : TerminalWidget :=
  match event with
  | QtKey.ret =>
    let command := pyStrip w.inputText
    let w1 := { w with inputText := "" }
    if command = "" then w1
    else { w1 with process := w1.process.write (utf8Encode (command ++ "\n")) }
  | QtKey.other => w

/-- TerminalWidget.on_stdout (advanced_script_editor.py lines 102-104):
the bytes read from the child standard output are decoded by the strict
default bytes.decode and appended to the output box; none models the
UnicodeDecodeError escaping the slot when decoding fails. -/
def TerminalWidget.on_stdout (w : TerminalWidget) (chunk : List Nat) : Option TerminalWidget :=
  match utf8Decode chunk with
  | some cs => some { w with outputLog := w.outputLog ++ [String.mk cs] }
  | none => none

/-- TerminalWidget.on_stderr (advanced_script_editor.py lines 106-108),
identical to on_stdout but reading the child standard error. -/
def TerminalWidget.on_stderr (w : TerminalWidget) (chunk : List Nat) : Option TerminalWidget :=
  match utf8Decode chunk with
  | some cs => some { w with outputLog := w.outputLog ++ [String.mk cs] }
  | none => none

/-- Unfolding lemma for run_script on a tab whose path resolves: the
launcher is called exactly once with the resolved command, the buffer is
saved to the path before that call, and the outcome is classified from
the spawn result. -/
theorem run_script_resolved (spawn : List String → SpawnResult) (tab : ScriptTab)
    (path : String) (cmd : List String) (fs : FileSystem)
    (hp : tab.file_path = some path)
    (hc : resolveCmd (splitextExt path) path = some cmd) :
    (run_script spawn (some tab) fs).2.2 = [cmd] ∧
    (run_script spawn (some tab) fs).2.1 = fsWrite fs path tab.buffer ∧
    (run_script spawn (some tab) fs).1 =
      (match spawn cmd with
       | SpawnResult.completed 0 out => RunOutcome.executed true out
       | SpawnResult.completed (_ + 1) out => RunOutcome.executed false out
       | SpawnResult.osError msg => RunOutcome.uncaughtError msg) := by
  simp only [run_script, hp, hc, ScriptTab.save]
  cases hs : spawn cmd with
  | completed ec out => cases ec <;> simp
  | osError msg => simp

/-- Unfolding lemma for run_script on a tab whose extension is not in the
registry: the unsupported-type branch returns with the filesystem
untouched and no launcher call. -/
theorem run_script_unsupported (spawn : List String → SpawnResult) (tab : ScriptTab)
    (path : String) (fs : FileSystem) (hp : tab.file_path = some path)
    (h1 : splitextExt path ≠ ".py") (h2 : splitextExt path ≠ ".bat")
    (h3 : splitextExt path ≠ ".ps1") :
    run_script spawn (some tab) fs = (RunOutcome.unsupportedType, fs, []) := by
  have hc : resolveCmd (splitextExt path) path = none := by
    simp [resolveCmd, h1, h2, h3]
  simp only [run_script, hp, hc]

/-- C1: running a script resolves exactly the documented interpreter
command for each supported extension, spawning exactly that command once
(python path; cmd.exe /c path; powershell -File path), and for any
extension outside the set the run fails on the unsupported-script-type
branch with the launcher receiving zero calls. -/
theorem c1_registry_resolution (spawn : List String → SpawnResult) (tab : ScriptTab)
    (path : String) (fs : FileSystem) (hp : tab.file_path = some path) :
    (splitextExt path = ".py" →
      (run_script spawn (some tab) fs).2.2 = [["python", path]]) ∧
    (splitextExt path = ".bat" →
      (run_script spawn (some tab) fs).2.2 = [["cmd.exe", "/c", path]]) ∧
    (splitextExt path = ".ps1" →
      (run_script spawn (some tab) fs).2.2 = [["powershell", "-File", path]]) ∧
    (splitextExt path ≠ ".py" → splitextExt path ≠ ".bat" → splitextExt path ≠ ".ps1" →
      (run_script spawn (some tab) fs).1 = RunOutcome.unsupportedType ∧
      (run_script spawn (some tab) fs).2.2 = []) := by
  refine ⟨?_, ?_, ?_, ?_⟩
  · intro he
    exact (run_script_resolved spawn tab path ["python", path] fs hp (by rw [he]; rfl)).1
  · intro he
    exact (run_script_resolved spawn tab path ["cmd.exe", "/c", path] fs hp (by rw [he]; rfl)).1
  · intro he
    exact (run_script_resolved spawn tab path ["powershell", "-File", path] fs hp (by rw [he]; rfl)).1
  · intro h1 h2 h3
    have h := run_script_unsupported spawn tab path fs hp h1 h2 h3
    exact ⟨by rw [h], by rw [h]⟩

/-- Witness for c1_registry_resolution at a concrete python tab. -/
theorem c1_registry_resolution_witness :
    (⟨some "s.py", "x"⟩ : ScriptTab).file_path = some "s.py" ∧
    (run_script (fun _ => SpawnResult.completed 0 "ok") (some ⟨some "s.py", "x"⟩) []).2.2
      = [["python", "s.py"]] :=
  ⟨rfl, (c1_registry_resolution (fun _ => SpawnResult.completed 0 "ok")
      ⟨some "s.py", "x"⟩ "s.py" [] rfl).1 (by decide)⟩

/-- C2: when the child process terminates, the result is classified by
exit code: exit code zero yields a succeeded result carrying the captured
output, and any non-zero exit code yields a failed result still carrying
the captured output (the output field of the caught CalledProcessError). -/
theorem c2_exit_classification (spawn : List String → SpawnResult) (tab : ScriptTab)
    (path : String) (cmd : List String) (ec : Nat) (out : String) (fs : FileSystem)
    (hp : tab.file_path = some path)
    (hc : resolveCmd (splitextExt path) path = some cmd)
    (hs : spawn cmd = SpawnResult.completed ec out) :
    (ec = 0 → (run_script spawn (some tab) fs).1 = RunOutcome.executed true out) ∧
    (ec ≠ 0 → (run_script spawn (some tab) fs).1 = RunOutcome.executed false out) := by
  have h := (run_script_resolved spawn tab path cmd fs hp hc).2.2
  rw [hs] at h
  constructor
  · intro h0
    subst h0
    simpa using h
  · intro h0
    cases ec with
    | zero => exact absurd rfl h0
    | succ n => simpa using h

/-- Witness for c2_exit_classification: a script exiting with status 1 is
reported as a failed execution with the captured output. -/
theorem c2_exit_classification_witness :
    (fun (_ : List String) => SpawnResult.completed 1 "boom") ["python", "t.py"]
      = SpawnResult.completed 1 "boom" ∧
    (run_script (fun _ => SpawnResult.completed 1 "boom") (some ⟨some "t.py", "x"⟩) []).1
      = RunOutcome.executed false "boom" :=
  ⟨rfl, (c2_exit_classification (fun _ => SpawnResult.completed 1 "boom") ⟨some "t.py", "x"⟩
      "t.py" ["python", "t.py"] 1 "boom" [] rfl (by decide) rfl).2 (by decide)⟩

/-- C3 counterexample: on a tab whose path is absent from the filesystem,
run_script does not fail with a missing-file error and the launcher is
not left uncalled: the buffer is saved and exactly one spawn happens, the
run completing normally. -/
theorem c3_counterexample :
    ([] : FileSystem).lookup "/home/user/missing.py" = none ∧
    run_script (fun _ => SpawnResult.completed 0 "ok")
        (some ⟨some "/home/user/missing.py", "print(1)"⟩) []
      = (RunOutcome.executed true "ok", [("/home/user/missing.py", "print(1)")],
         [["python", "/home/user/missing.py"]]) ∧
    [["python", "/home/user/missing.py"]] ≠ ([] : List (List String)) :=
  ⟨rfl, by decide, by decide⟩

/-- C3 (amended): run_script performs no existence check on the script
path; when the path is set but absent on disk, the buffer is saved to the
path (creating the file) and the interpreter is spawned anyway, exactly
once. -/
theorem c3_no_missing_file_check (spawn : List String → SpawnResult) (tab : ScriptTab)
    (path : String) (cmd : List String) (fs : FileSystem)
    (hp : tab.file_path = some path)
    (hc : resolveCmd (splitextExt path) path = some cmd)
    (_habsent : fs.lookup path = none) :
    (run_script spawn (some tab) fs).2.2 = [cmd] ∧
    ((run_script spawn (some tab) fs).2.1).lookup path = some tab.buffer := by
  obtain ⟨h1, h2, -⟩ := run_script_resolved spawn tab path cmd fs hp hc
  refine ⟨h1, ?_⟩
  rw [h2]
  simp [fsWrite]

/-- Witness for c3_no_missing_file_check at a concrete absent path. -/
theorem c3_no_missing_file_check_witness :
    ([] : FileSystem).lookup "/home/user/missing.py" = none ∧
    (run_script (fun _ => SpawnResult.completed 0 "ok")
        (some ⟨some "/home/user/missing.py", "print(1)"⟩) []).2.2
      = [["python", "/home/user/missing.py"]] ∧
    ((run_script (fun _ => SpawnResult.completed 0 "ok")
        (some ⟨some "/home/user/missing.py", "print(1)"⟩) []).2.1).lookup
          "/home/user/missing.py" = some "print(1)" :=
  ⟨rfl,
   (c3_no_missing_file_check (fun _ => SpawnResult.completed 0 "ok")
      ⟨some "/home/user/missing.py", "print(1)"⟩ "/home/user/missing.py"
      ["python", "/home/user/missing.py"] [] rfl (by decide) rfl).1,
   (c3_no_missing_file_check (fun _ => SpawnResult.completed 0 "ok")
      ⟨some "/home/user/missing.py", "print(1)"⟩ "/home/user/missing.py"
      ["python", "/home/user/missing.py"] [] rfl (by decide) rfl).2⟩

/-- C4: evidence that the script path does not reach the interpreter as a
single non-reinterpreted argument.  run_script hands the command list to
check_output with shell set, so the list is flattened by list2cmdline
(which quotes only on space, tab or empty) and re-parsed by cmd.exe; for
the path a&b.py the flattened line contains an unquoted ampersand and
cmd.exe splits it into two separate commands, so the interpreter receives
the argument a and a second command b.py runs. -/
theorem c4_shell_reinterprets_path :
    run_script (fun _ => SpawnResult.completed 0 "") (some ⟨some "a&b.py", "print(1)"⟩) []
      = (RunOutcome.executed true "", [("a&b.py", "print(1)")], [["python", "a&b.py"]]) ∧
    list2cmdline ["python", "a&b.py"] = "python a&b.py" ∧
    cmdSplitAmp "python a&b.py" = ["python a", "b.py"] ∧
    ["python a", "b.py"] ≠ ["python a&b.py"] :=
  ⟨by decide, by decide, by decide, by decide⟩

/-- C5 counterexample: when the operating system fails to create the
child process, the raised OSError is not caught (only CalledProcessError
is), so the failure escapes run_script as an uncaught exception instead
of a failed result carrying the error text. -/
theorem c5_counterexample :
    (run_script (fun _ => SpawnResult.osError "Permission denied")
        (some ⟨some "s.py", "x"⟩) []).1 = RunOutcome.uncaughtError "Permission denied" ∧
    (run_script (fun _ => SpawnResult.osError "Permission denied")
        (some ⟨some "s.py", "x"⟩) []).1 ≠ RunOutcome.executed false "Permission denied" :=
  ⟨by decide, by decide⟩

/-- C5 (amended): launch failures surfaced through the shell as a
non-zero exit (for example a missing interpreter reported by cmd.exe)
are returned as a failed result whose output is the captured error text,
but an OSError from creating the shell process itself is not caught and
propagates out of run_script. -/
theorem c5_launch_failure_paths (spawn : List String → SpawnResult) (tab : ScriptTab)
    (path : String) (cmd : List String) (fs : FileSystem) (n : Nat) (out msg : String)
    (hp : tab.file_path = some path)
    (hc : resolveCmd (splitextExt path) path = some cmd) :
    (spawn cmd = SpawnResult.completed (n + 1) out →
      (run_script spawn (some tab) fs).1 = RunOutcome.executed false out) ∧
    (spawn cmd = SpawnResult.osError msg →
      (run_script spawn (some tab) fs).1 = RunOutcome.uncaughtError msg) := by
  have h := (run_script_resolved spawn tab path cmd fs hp hc).2.2
  constructor
  · intro hs
    rw [hs] at h
    simpa using h
  · intro hs
    rw [hs] at h
    simpa using h

/-- Witness for c5_launch_failure_paths: exit code 9009 (command not
found reported by cmd.exe) becomes a failed result with the error text. -/
theorem c5_launch_failure_paths_witness :
    (⟨some "t.py", "x"⟩ : ScriptTab).file_path = some "t.py" ∧
    (run_script (fun _ => SpawnResult.completed 9009 "python is not recognized")
        (some ⟨some "t.py", "x"⟩) []).1
      = RunOutcome.executed false "python is not recognized" :=
  ⟨rfl, (c5_launch_failure_paths
      (fun _ => SpawnResult.completed 9009 "python is not recognized")
      ⟨some "t.py", "x"⟩ "t.py" ["python", "t.py"] [] 9008
      "python is not recognized" "m" rfl (by decide)).1 rfl⟩

/-- C6 counterexample: the runner itself saves the buffer, so a run does
not leave the file on disk unchanged: starting from disk content old and
buffer content new, after run_script the file holds new. -/
theorem c6_counterexample :
    ([("s.py", "old")] : FileSystem).lookup "s.py" = some "old" ∧
    ((run_script (fun _ => SpawnResult.completed 0 "done")
        (some ⟨some "s.py", "new"⟩) [("s.py", "old")]).2.1).lookup "s.py" = some "new" ∧
    ("new" : String) ≠ "old" :=
  ⟨rfl, by decide, by decide⟩

/-- C6 (amended): run_script itself persists the editor buffer to the
script path (after resolving a supported extension, before spawning), so
after the run the file on disk holds the current buffer content. -/
theorem c6_runner_saves_buffer (spawn : List String → SpawnResult) (tab : ScriptTab)
    (path : String) (cmd : List String) (fs : FileSystem)
    (hp : tab.file_path = some path)
    (hc : resolveCmd (splitextExt path) path = some cmd) :
    (run_script spawn (some tab) fs).2.1 = fsWrite fs path tab.buffer ∧
    ((run_script spawn (some tab) fs).2.1).lookup path = some tab.buffer := by
  obtain ⟨-, h2, -⟩ := run_script_resolved spawn tab path cmd fs hp hc
  refine ⟨h2, ?_⟩
  rw [h2]
  simp [fsWrite]

/-- Witness for c6_runner_saves_buffer at a concrete tab and filesystem. -/
theorem c6_runner_saves_buffer_witness :
    (⟨some "s.py", "new"⟩ : ScriptTab).file_path = some "s.py" ∧
    ((run_script (fun _ => SpawnResult.completed 0 "done")
        (some ⟨some "s.py", "new"⟩) [("s.py", "old")]).2.1).lookup "s.py" = some "new" :=
  ⟨rfl, (c6_runner_saves_buffer (fun _ => SpawnResult.completed 0 "done")
      ⟨some "s.py", "new"⟩ "s.py" ["python", "s.py"] [("s.py", "old")] rfl (by decide)).2⟩

/-- C7: a submit while the shell process is not running (before start or
after it exited) is a no-op: handle_keypress is total (nothing is
thrown), and the process state is completely unchanged, so nothing is
written to any process input and no process is spawned. -/
theorem c7_submit_not_running_noop (w : TerminalWidget) (e : QtKey)
    (h : w.process.running = false) :
    (TerminalWidget.handle_keypress w e).process = w.process := by
  cases e with
  | other => rfl
  | ret =>
    simp only [TerminalWidget.handle_keypress]
    split
    · rfl
    · simp [QProcessState.write, h]

/-- Witness for c7_submit_not_running_noop on a dead process. -/
theorem c7_submit_not_running_noop_witness :
    (⟨⟨false, []⟩, "echo hi", []⟩ : TerminalWidget).process.running = false ∧
    (TerminalWidget.handle_keypress ⟨⟨false, []⟩, "echo hi", []⟩ QtKey.ret).process
      = (⟨⟨false, []⟩, "echo hi", []⟩ : TerminalWidget).process :=
  ⟨rfl, c7_submit_not_running_noop ⟨⟨false, []⟩, "echo hi", []⟩ QtKey.ret rfl⟩

/-- C8: on a running shell, a submission that is empty after trimming
whitespace writes nothing to the process (the process state is
unchanged), and a non-empty one writes exactly the trimmed command text
plus one trailing newline, utf-8 encoded, as one chunk. -/
theorem c8_submit_write_exact (w : TerminalWidget) (h : w.process.running = true) :
    (pyStrip w.inputText = "" →
      (TerminalWidget.handle_keypress w QtKey.ret).process = w.process) ∧
    (pyStrip w.inputText ≠ "" →
      (TerminalWidget.handle_keypress w QtKey.ret).process.stdinWrites
        = w.process.stdinWrites ++ [utf8Encode (pyStrip w.inputText ++ "\n")]) := by
  constructor
  · intro he
    simp [TerminalWidget.handle_keypress, he]
  · intro he
    simp [TerminalWidget.handle_keypress, he, QProcessState.write, h]

/-- Witness for c8_submit_write_exact: a padded echo command is trimmed
and written with exactly one trailing newline. -/
theorem c8_submit_write_exact_witness :
    (⟨⟨true, []⟩, "  echo hi  ", []⟩ : TerminalWidget).process.running = true ∧
    pyStrip "  echo hi  " ≠ "" ∧
    (TerminalWidget.handle_keypress ⟨⟨true, []⟩, "  echo hi  ", []⟩ QtKey.ret).process.stdinWrites
      = ([] : List (List Nat)) ++ [utf8Encode (pyStrip "  echo hi  " ++ "\n")] :=
  ⟨rfl, by decide,
   (c8_submit_write_exact ⟨⟨true, []⟩, "  echo hi  ", []⟩ rfl).2 (by decide)⟩

/-- C9: evidence that decoding is not crash-free on chunk boundaries.
The byte 0xC3 is the first half of the two-byte utf-8 encoding of the
character at code point 0xE9; a chunk ending after that byte makes the
strict decode used by on_stdout and on_stderr fail, which in the source
is an uncaught UnicodeDecodeError in the slot, not a buffered or
replaced sequence. -/
theorem c9_incomplete_utf8_crashes :
    TerminalWidget.on_stdout ⟨⟨true, []⟩, "", []⟩ [0xC3] = none ∧
    TerminalWidget.on_stderr ⟨⟨true, []⟩, "", []⟩ [0xC3] = none ∧
    utf8Encode "é" = [0xC3, 0xA9] ∧
    utf8Decode [0xC3, 0xA9] = some ['é'] :=
  ⟨by decide, by decide, by decide, by decide⟩

/-- C10: when the extension of the current tab is not in the supported
set, run_script returns on the unsupported-type branch before the
save-before-run step, so the filesystem is left untouched and no process
is spawned. -/
theorem c10_unsupported_before_save (spawn : List String → SpawnResult) (tab : ScriptTab)
    (path : String) (fs : FileSystem) (hp : tab.file_path = some path)
    (h1 : splitextExt path ≠ ".py") (h2 : splitextExt path ≠ ".bat")
    (h3 : splitextExt path ≠ ".ps1") :
    run_script spawn (some tab) fs = (RunOutcome.unsupportedType, fs, []) :=
  run_script_unsupported spawn tab path fs hp h1 h2 h3

/-- Witness for c10_unsupported_before_save on a text file over stale
disk content, which the failed run leaves in place. -/
theorem c10_unsupported_before_save_witness :
    (⟨some "notes.txt", "x"⟩ : ScriptTab).file_path = some "notes.txt" ∧
    splitextExt "notes.txt" ≠ ".py" ∧
    run_script (fun _ => SpawnResult.completed 0 "") (some ⟨some "notes.txt", "x"⟩)
        [("notes.txt", "old")]
      = (RunOutcome.unsupportedType, [("notes.txt", "old")], []) :=
  ⟨rfl, by decide,
   c10_unsupported_before_save (fun _ => SpawnResult.completed 0 "")
     ⟨some "notes.txt", "x"⟩ "notes.txt" [("notes.txt", "old")] rfl
     (by decide) (by decide) (by decide)⟩
